import Mathlib

/-!
Verification development for the pull-box repository.

This file gives a shallow embedding of the credential lifecycle,
public-upload gateway, link-code allocation and Drive-client code of the
repository, and proves or refutes the frozen claims about it.

Conventions:
* timestamps are `Int` milliseconds since the epoch (`Date.now()`),
* a database `null` is `Option.none`,
* JavaScript string truthiness (`!s`) is `s = ""` on plain strings and
  `optTruthy` on nullable ones,
* fallible code returns `Except`/`Option`.
-/

namespace PullBox

/-- JS string truthiness of a nullable string: `null`, `undefined` and the
empty string are falsy, every other string is truthy. -/
def optTruthy : Option String → Bool
  | none => false
  | some s => s ≠ ""

/-- ASCII alphanumeric test, the character class `[A-Za-z0-9]`. -/
def isAlnumAscii (c : Char) : Bool :=
  (('A' ≤ c ∧ c ≤ 'Z') ∨ ('a' ≤ c ∧ c ≤ 'z') ∨ ('0' ≤ c ∧ c ≤ '9') : Prop)

/-- The anchored pattern `^[A-Za-z0-9]{4,12}$` from `extractLinkCode` and
from the spec link format, as a predicate on a list of characters. -/
def matchesCodePattern (l : List Char) : Bool :=
  4 ≤ l.length && l.length ≤ 12 && l.all isAlnumAscii

/-- Boolean prefix test on character lists (used to model regex searching). -/
def isPrefixList : List Char → List Char → Bool
  | [], _ => true
  | _ :: _, [] => false
  | a :: as, b :: bs => a == b && isPrefixList as bs

/-- Character class `[^/?#]` used by the capture groups in `extractLinkCode`. -/
def isCaptureChar (c : Char) : Bool :=
  ¬ (c = '/' ∨ c = '?' ∨ c = '#')

/-- JS whitespace recognised by `String.prototype.trim`, restricted to the
ASCII whitespace characters. -/
def isJsSpace (c : Char) : Bool :=
  (c = ' ' ∨ c = '\t' ∨ c = '\n' ∨ c = '\r' ∨ c = Char.ofNat 11 ∨ c = Char.ofNat 12 : Prop)

/-- Model of `String.prototype.trim`: strip leading and trailing
whitespace. -/
def jsTrim (s : String) : String :=
  String.mk (((s.data.dropWhile isJsSpace).reverse.dropWhile isJsSpace).reverse)

/-- Model of an unanchored regex search for `marker([^/?#]+)`: scan left to
right for an occurrence of the literal marker followed by at least one
character outside `/?#`, and return that maximal capture. -/
def scanCapture (marker : List Char) : List Char → Option (List Char)
  | [] =>
    if isPrefixList marker [] then
      let cap := (([] : List Char).drop marker.length).takeWhile isCaptureChar
      if cap.isEmpty then none else some cap
    else none
  | l@(_ :: t) =>
    if isPrefixList marker l then
      let cap := (l.drop marker.length).takeWhile isCaptureChar
      if cap.isEmpty then scanCapture marker t else some cap
    else scanCapture marker t

/-- Embedding of `extractLinkCode` (edge function): trim the raw field,
reject the empty string, accept a bare `^[A-Za-z0-9]{4,12}$` code, else try
the hash pattern `#/jar/([^/?#]+)` and then the path pattern
`/jar/([^/?#]+)`. -/
def extractLinkCode (value : String) : Option String :=
  let trimmed := jsTrim value
  if trimmed = "" then none
  else if matchesCodePattern trimmed.data then some trimmed
  else
    match scanCapture ("#/jar/").data trimmed.data with
    | some cap => some (String.mk cap)
    | none =>
      match scanCapture ("/jar/").data trimmed.data with
      | some cap => some (String.mk cap)
      | none => none

/-- Embedding of the share-link construction in `Dashboard.handleCopyLink`:
the URL placed on the clipboard is `origin + "/#/box/" + code`. -/
def dashboardShareLink (origin code : String) : String :=
  origin ++ "/#/box/" ++ code

/-- The character JavaScript uses for a base-36 digit: `0`-`9` then
lowercase `a`-`z`. -/
def base36Char (d : Nat) : Char :=
  if d < 10 then Char.ofNat (48 + d) else Char.ofNat (87 + d)

/-- Model of `Number.prototype.toString(36)` on a value in `[0, 1)`: the
value is represented by the digit list of its shortest base-36 fractional
expansion (no trailing zero digit). `0` prints as `"0"`; a nonzero value
prints as `"0."` followed by its digits. -/
def jsToStringBase36 (digits : List Nat) : String :=
  if digits.isEmpty then "0"
  else String.mk (('0' :: '.' :: digits.map base36Char))

/-- A digit list is a valid shortest base-36 fractional expansion when every
digit is below 36 and the expansion does not end in a zero digit. -/
def validBase36Fraction (digits : List Nat) : Bool :=
  digits.all (fun d => d < 36) && (digits = [] || digits.getLast? ≠ some 0)

/-- Model of `String.prototype.substr(start, len)`. -/
def jsSubstr (s : String) (start len : Nat) : String :=
  String.mk ((s.data.drop start).take len)

/-- ASCII `toUpperCase` on one character. -/
def jsUpperChar (c : Char) : Char :=
  if 'a' ≤ c ∧ c ≤ 'z' then Char.ofNat (c.toNat - 32) else c

/-- ASCII `String.prototype.toUpperCase`. -/
def jsUpper (s : String) : String :=
  String.mk (s.data.map jsUpperChar)

/-- Embedding of `generateLinkCode` in `App.tsx`:
`Math.random().toString(36).substr(2, 6).toUpperCase()`, as a function of
the base-36 expansion of the `Math.random()` value. -/
def generateLinkCode (digits : List Nat) : String :=
  jsUpper (jsSubstr (jsToStringBase36 digits) 2 6)

/-! ## The public upload gateway (edge function `serve` handler) -/

/-- A `pull_boxes` row as selected by the gateway:
`id, owner_id, drive_folder_id, expires_at, photo_count`.
`expiresAt` is the parsed timestamp of the `expires_at` column
(`none` = SQL null); `photoCount` is the nullable `photo_count` column. -/
structure Box where
  id : String
  ownerId : String
  driveFolderId : String
  expiresAt : Option Int
  photoCount : Option Nat
  deriving Repr, DecidableEq

/-- A `user_oauth_tokens` row as selected by the gateway:
`access_token, refresh_token, expires_at`, each nullable. -/
structure CredRow where
  accessToken : Option String
  refreshToken : Option String
  expiresAt : Option Int
  deriving Repr, DecidableEq

/-- The provider token-endpoint response consumed by `refreshAccessToken`:
HTTP success flag, `access_token`, `expires_in` (seconds, absent or zero is
falsy) and the raw `refresh_token` field (absent, empty or a token). -/
structure TokenResp where
  ok : Bool
  accessToken : String
  expiresIn : Option Int
  refreshTokenField : Option String
  deriving Repr, DecidableEq

/-- The value `refreshAccessToken` resolves with on success. -/
structure RefreshedTok where
  accessToken : String
  expiresAt : Option Int
  refreshToken : Option String
  deriving Repr, DecidableEq

/-- Embedding of `refreshAccessToken` (edge function): throws when the OAuth
client credentials are not configured or the token endpoint responds
non-success; otherwise computes the new expiry from `expires_in` (null when
falsy) and keeps the returned refresh token only when it is truthy. -/
def refreshAccessToken (googleCredsConfigured : Bool) (now : Int)
    (resp : TokenResp) : Except Unit RefreshedTok :=
  if ¬ googleCredsConfigured then Except.error ()
  else if ¬ resp.ok then Except.error ()
  else Except.ok
    { accessToken := resp.accessToken
      expiresAt :=
        match resp.expiresIn with
        | some e => if e ≠ 0 then some (now + e * 1000) else none
        | none => none
      refreshToken :=
        match resp.refreshTokenField with
        | some s => if s = "" then none else some s
        | none => none }

/-- Embedding of `isExpired` (edge function): a null or unparseable expiry
is treated as not expired, otherwise expired means
`expiry <= Date.now() + 30_000`. -/
def isExpired (expiresAt : Option Int) (now : Int) : Bool :=
  match expiresAt with
  | none => false
  | some e => e ≤ now + 30000

/-- The gateway expiry gate on a `pull_boxes` row:
`box.expires_at && Date.parse(box.expires_at) <= Date.now()`. A null
`expires_at` is falsy, so such a box is never treated as expired. -/
def boxExpiredGate (expiresAt : Option Int) (now : Int) : Bool :=
  match expiresAt with
  | none => false
  | some e => decide (e ≤ now)

/-- Model of `String.prototype.startsWith` via character lists. -/
def jsStartsWith (s pre : String) : Bool :=
  isPrefixList pre.data s.data

/-- A file in the multipart submission: its `name` and content `type`. -/
structure GwFile where
  name : String
  type : String
  deriving Repr, DecidableEq

/-- Outcome of one `uploadToDrive` call: resolves with `{id, name}` or
throws with an error message. -/
inductive UploadOutcome where
  | ok (id : String) (name : String)
  | err (msg : String)
  deriving Repr, DecidableEq

/-- One `update` issued against the `user_oauth_tokens` row. -/
structure CredWrite where
  accessToken : String
  refreshToken : Option String
  expiresAt : Option Int
  deriving Repr, DecidableEq

/-- The response of the gateway handler, by branch. -/
inductive GwResponse where
  | missingLinkCode
  | missingFile
  | nonImage
  | invalidLink
  | linkExpired
  | ownerNotConnected
  | refreshFailed
  | uploadFailed (msg : String)
  | okFiles (files : List (String × String))
  deriving Repr, DecidableEq

/-- HTTP status of each gateway response. -/
def GwResponse.status : GwResponse → Nat
  | .missingLinkCode => 400
  | .missingFile => 400
  | .nonImage => 400
  | .invalidLink => 404
  | .linkExpired => 410
  | .ownerNotConnected => 403
  | .refreshFailed => 502
  | .uploadFailed _ => 502
  | .okFiles _ => 200

/-- Observable effects and response of one gateway request. `credReads`
counts `user_oauth_tokens` selects, `refreshCalls` counts entries into the
`refreshAccessToken` try-block, `credWrites` lists `user_oauth_tokens`
updates, `uploadCalls` counts `uploadToDrive` invocations, `countWrites`
lists the absolute values written to `photo_count`. -/
structure GwResult where
  response : GwResponse
  credReads : Nat
  refreshCalls : Nat
  credWrites : List CredWrite
  uploadCalls : Nat
  countWrites : List Nat
  deriving Repr, DecidableEq

/-- The sequential upload loop of the gateway: files are uploaded in order;
the first throwing upload aborts the loop. Returns the number of
`uploadToDrive` calls made and either the collected `{id, name}` results or
the first error. `outcomes i` is what `uploadToDrive` does for the i-th
attempted file. -/
def runUploads (outcomes : Nat → UploadOutcome) :
    List GwFile → Nat → Nat × Except String (List (String × String))
  | [], _ => (0, Except.ok [])
  | _ :: fs, i =>
    match outcomes i with
    | .ok fid fname =>
      let rest := runUploads outcomes fs (i + 1)
      (rest.1 + 1, rest.2.map (fun l => (fid, fname) :: l))
    | .err m => (1, Except.error m)

/-- The `user_oauth_tokens` update issued after a successful token
refresh: the new access token, the returned refresh token when present
(else the stored one kept), and the new expiry. -/
def refreshCredWrite (cred : CredRow) (refreshed : RefreshedTok) : CredWrite :=
  { accessToken := refreshed.accessToken
    refreshToken :=
      match refreshed.refreshToken with
      | some s => some s
      | none => cred.refreshToken
    expiresAt := refreshed.expiresAt }

/-- The gateway handler from the `user_oauth_tokens` lookup onward:
credential guard, proactive refresh-and-persist, access-token guard,
sequential upload loop, and `photo_count` update. -/
def gwOwnerStage (box : Box) (credRow : Option CredRow) (now : Int)
    (googleCredsConfigured : Bool) (tokResp : TokenResp)
    (outcomes : Nat → UploadOutcome) (files : List GwFile) : GwResult :=
  match credRow with
  | none => ⟨.ownerNotConnected, 1, 0, [], 0, []⟩
  | some cred =>
    if ¬ optTruthy cred.accessToken ∧ ¬ optTruthy cred.refreshToken then
      ⟨.ownerNotConnected, 1, 0, [], 0, []⟩
    else
      let accessToken0 := cred.accessToken.getD ""
      let needsRefresh :=
        (accessToken0 == "") || isExpired cred.expiresAt now
      let refreshStep :
          Except Unit (String × List CredWrite × Nat) :=
        if optTruthy cred.refreshToken ∧ needsRefresh then
          match refreshAccessToken googleCredsConfigured now tokResp with
          | Except.error _ => Except.error ()
          | Except.ok refreshed =>
            Except.ok (refreshed.accessToken, [refreshCredWrite cred refreshed], 1)
        else Except.ok (accessToken0, [], 0)
      match refreshStep with
      | Except.error _ => ⟨.refreshFailed, 1, 1, [], 0, []⟩
      | Except.ok (accessToken, credWrites, refreshCalls) =>
        if accessToken = "" then
          ⟨.ownerNotConnected, 1, refreshCalls, credWrites, 0, []⟩
        else
          let up := runUploads outcomes files 0
          match up.2 with
          | Except.error m =>
            ⟨.uploadFailed m, 1, refreshCalls, credWrites, up.1, []⟩
          | Except.ok results =>
            let countWrites :=
              if results.length > 0 then
                [box.photoCount.getD 0 + results.length]
              else []
            ⟨.okFiles results, 1, refreshCalls, credWrites, up.1, countWrites⟩

/-- Embedding of the gateway `serve` handler from form parsing onward.
Inputs: the raw submitted code field, the submitted files, the `pull_boxes`
lookup result, the `user_oauth_tokens` lookup result, the current time, the
OAuth client configuration flag, the token-endpoint response and the
per-file upload outcomes. -/
def gwServe (rawCode : String) (files : List GwFile) (boxRow : Option Box)
    (credRow : Option CredRow) (now : Int) (googleCredsConfigured : Bool)
    (tokResp : TokenResp) (outcomes : Nat → UploadOutcome) : GwResult :=
  match extractLinkCode rawCode with
  | none => ⟨.missingLinkCode, 0, 0, [], 0, []⟩
  | some _ =>
    if files.isEmpty then ⟨.missingFile, 0, 0, [], 0, []⟩
    else if files.any (fun f => ¬ jsStartsWith f.type ("image/")) then
      ⟨.nonImage, 0, 0, [], 0, []⟩
    else
      match boxRow with
      | none => ⟨.invalidLink, 0, 0, [], 0, []⟩
      | some box =>
        if boxExpiredGate box.expiresAt now then
          ⟨.linkExpired, 0, 0, [], 0, []⟩
        else
          gwOwnerStage box credRow now googleCredsConfigured tokResp
            outcomes files

/-- The store-side effect of applying a sequence of `photo_count` column
updates: each update overwrites the column with the absolute value the
handler computed. -/
def applyCountWrites (init : Nat) (ws : List Nat) : Nat :=
  ws.foldl (fun _ w => w) init

/-! ## The authorized Drive client (`GoogleDriveService`) -/

/-- An HTTP response as seen by the client: status and body text. -/
structure HttpResp where
  status : Nat
  body : String
  deriving Repr, DecidableEq

/-- Trace of one `authorizedFetch` call: the response it returns, how many
times the token refresher ran, and the bearer token used by each `fetch`,
in order. -/
structure FetchTrace where
  result : HttpResp
  refreshCalls : Nat
  fetchTokens : List String
  deriving Repr, DecidableEq

/-- Embedding of `GoogleDriveService.authorizedFetch`
(`createDriveFolder.ts`). `fetchF tok` is the provider response to the
request sent with bearer `tok`; `refresher` is `none` when no
`tokenRefresher` was supplied, `some none` when the refresher threw or
resolved with null (the `.catch(() => null)`), and `some (some t)` when it
resolved with the string `t`. On a 401 first attempt it runs the refresher
once; only a truthy token different from the current one causes the single
retry, which is issued with `retry = false` and so is returned as-is even
when it fails again. -/
def authorizedFetch (fetchF : String → HttpResp)
    (refresher : Option (Option String)) (token : String) : FetchTrace :=
  let r1 := fetchF token
  if r1.status = 401 then
    match refresher with
    | none => ⟨r1, 0, [token]⟩
    | some outcome =>
      match outcome with
      | none => ⟨r1, 1, [token]⟩
      | some t =>
        if t = "" ∨ t = token then ⟨r1, 1, [token]⟩
        else ⟨fetchF t, 1, [token, t]⟩
  else ⟨r1, 0, [token]⟩

/-- Embedding of `GoogleDriveService.fetchWithAuth`
(`services/googleDrive.ts`, non-demo path): a single authorized `fetch`
with no refresh logic; a non-ok status throws, an ok status returns the
body. The returned trace records zero refresher runs and the one bearer
token used. -/
def fetchWithAuth (fetchF : String → HttpResp) (token : String) :
    Except String String × FetchTrace :=
  let r := fetchF token
  if 200 ≤ r.status ∧ r.status ≤ 299 then
    (Except.ok r.body, ⟨r, 0, [token]⟩)
  else
    (Except.error r.body, ⟨r, 0, [token]⟩)

/-- A `DriveFile` value as returned by `GoogleDriveService.uploadFile`. -/
structure DriveFile where
  id : String
  name : String
  thumbnailLink : String
  webContentLink : String
  size : String
  createdTime : String
  deriving Repr, DecidableEq

/-- The provider response to the multipart upload request: HTTP success
flag, the body text (empty when `response.text()` threw, mirroring the
`catch(() => '')`), and the result of `JSON.parse` on that text (`none`
when parsing throws). -/
structure UploadHttpResp where
  ok : Bool
  bodyText : String
  parsed : Option DriveFile
  deriving Repr, DecidableEq

/-- The locally fabricated `DriveFile` that `uploadFile` returns when the
provider body is empty or unparseable: random id with the `file_` prefix
from `Math.random().toString(36).substr(2, 9)`, empty links. -/
def fallbackDriveFile (randDigits : List Nat)
    (fileName sizeStr nowIso : String) : DriveFile :=
  { id := "file_" ++ jsSubstr (jsToStringBase36 randDigits) 2 9
    name := fileName
    thumbnailLink := ""
    webContentLink := ""
    size := sizeStr
    createdTime := nowIso }

/-- Embedding of `GoogleDriveService.uploadFile`
(`services/googleDrive.ts`, non-demo path): a non-ok response throws; an ok
response with an empty body, or whose body fails `JSON.parse`, resolves
with a fabricated `DriveFile`; otherwise the parsed body is returned.
`randDigits` is the base-36 expansion of the `Math.random()` draw,
`sizeStr` the formatted size string and `nowIso` the current ISO time. -/
def uploadFileService (resp : UploadHttpResp) (randDigits : List Nat)
    (fileName sizeStr nowIso : String) : Except String DriveFile :=
  if ¬ resp.ok then
    Except.error (if resp.bodyText = "" then "Upload failed" else resp.bodyText)
  else if resp.bodyText = "" then
    Except.ok (fallbackDriveFile randDigits fileName sizeStr nowIso)
  else
    match resp.parsed with
    | some parsedFile => Except.ok parsedFile
    | none => Except.ok (fallbackDriveFile randDigits fileName sizeStr nowIso)

/-! ## Link-code allocation (`handleCreateBox` in `App.tsx`) -/

/-- One operation issued to the `pull_boxes` table. The allocation loop we
embed only ever emits `insertRow`; the other constructors exist so that
"never updates or deletes" is a meaningful statement. -/
inductive StoreOp where
  | insertRow (linkCode : String)
  | updateRow (id : String)
  | deleteRow (id : String)
  deriving Repr, DecidableEq

/-- Outcome of one `insert(...).select().single()` attempt: the row was
created and returned, the insert hit the uniqueness constraint
(`error.code === '23505'`), or it failed with some other error code. -/
inductive InsertOutcome where
  | created
  | uniqueViolation
  | otherError (code : String)
  deriving Repr, DecidableEq

/-- Result of the allocation loop: a box was created on the given 0-based
attempt with the given code, the loop threw a non-uniqueness insert error,
or all attempts collided and the final
`throw new Error("Failed to create Pull-Box...")` fired. -/
inductive AllocResult where
  | created (attempt : Nat) (code : String)
  | aborted (errCode : String)
  | exhausted
  deriving Repr, DecidableEq

/-- Trace of the allocation loop: its result and the store operations it
issued, in order. -/
structure AllocTrace where
  result : AllocResult
  ops : List StoreOp
  deriving Repr, DecidableEq

/-- The `for (let i = 0; i < 3; i += 1)` loop body of `handleCreateBox`:
each iteration generates a fresh code from the next `Math.random()` draw
and attempts one insert; success breaks, a uniqueness violation continues,
any other error throws; an empty fuel means the loop finished without a
created box. `draws i` is the base-36 expansion of the `Math.random()`
call of attempt `i`, `outcomes i` the store outcome of attempt `i`. -/
def allocLoop (draws : Nat → List Nat) (outcomes : Nat → InsertOutcome) :
    Nat → Nat → AllocTrace
  | 0, _ => ⟨.exhausted, []⟩
  | fuel + 1, i =>
    let code := generateLinkCode (draws i)
    match outcomes i with
    | .created => ⟨.created i code, [.insertRow code]⟩
    | .uniqueViolation =>
      let rest := allocLoop draws outcomes fuel (i + 1)
      ⟨rest.result, .insertRow code :: rest.ops⟩
    | .otherError c => ⟨.aborted c, [.insertRow code]⟩

/-- Embedding of the non-demo allocation path of `handleCreateBox`: the
bounded retry loop with exactly 3 attempts. -/
def handleCreateBoxAlloc (draws : Nat → List Nat)
    (outcomes : Nat → InsertOutcome) : AllocTrace :=
  allocLoop draws outcomes 3 0

/-! ## Shared fixtures and helper lemmas -/

/-- A submitted image file. -/
def imgFile (n : String) : GwFile :=
  ⟨n, "image/jpeg"⟩

/-- A five-file image batch. -/
def batch5 : List GwFile :=
  [imgFile ("f1"), imgFile ("f2"), imgFile ("f3"), imgFile ("f4"), imgFile ("f5")]

/-- A single-file image batch. -/
def oneImg : List GwFile :=
  [imgFile ("f1")]

/-- A live box: expires at t=100000, current count 0. -/
def liveBox : Box :=
  ⟨"b1", "o1", "folder1", some 100000, some 0⟩

/-- A healthy owner credential: access token present, far-future expiry. -/
def freshCred : CredRow :=
  ⟨some ("tok"), some ("rtok"), some 10000000⟩

/-- A token-endpoint response that is never consulted in scenarios where no
refresh happens. -/
def tokRespUnused : TokenResp :=
  ⟨true, "newTok", none, none⟩

/-- Upload outcomes where every file succeeds. -/
def allOk : Nat → UploadOutcome :=
  fun _ => .ok ("i") ("n")

/-- Upload outcomes where the third file (index 2) fails upstream and every
other file succeeds. -/
def failAt3 : Nat → UploadOutcome :=
  fun i => if i = 2 then .err ("boom") else .ok ("i") ("n")

theorem optTruthy_getD (o : Option String) (h : optTruthy o = true) :
    o = some (o.getD "") ∧ o.getD "" ≠ "" := by
  cases o with
  | none => simp [optTruthy] at h
  | some s => simpa [optTruthy] using of_decide_eq_true h

theorem runUploads_all_ok (outcomes : Nat → UploadOutcome) :
    ∀ (files : List GwFile) (i : Nat),
      (∀ j, j < files.length → ∃ a b, outcomes (i + j) = .ok a b) →
      ∃ l, runUploads outcomes files i = (files.length, Except.ok l) ∧
        l.length = files.length := by
  intro files
  induction files with
  | nil => exact fun i _ => ⟨[], rfl, rfl⟩
  | cons f fs ih =>
    intro i h
    obtain ⟨a, b, hab⟩ := h 0 (Nat.succ_pos _)
    have hab' : outcomes i = .ok a b := by simpa using hab
    obtain ⟨l, hl, hlen⟩ := ih (i + 1) (fun j hj => by
      have hh := h (j + 1) (Nat.succ_lt_succ hj)
      have e : i + (j + 1) = i + 1 + j := by omega
      rw [e] at hh
      exact hh)
    refine ⟨(a, b) :: l, ?_, by simp [hlen]⟩
    simp only [runUploads, hab', hl]
    rfl

theorem runUploads_first_err (outcomes : Nat → UploadOutcome) (m : String) :
    ∀ (k : Nat) (files : List GwFile) (i : Nat),
      k < files.length →
      (∀ j, j < k → ∃ a b, outcomes (i + j) = .ok a b) →
      outcomes (i + k) = .err m →
      runUploads outcomes files i = (k + 1, Except.error m) := by
  intro k
  induction k with
  | zero =>
    intro files i hk hpre herr
    cases files with
    | nil => simp at hk
    | cons f fs =>
      have herr' : outcomes i = .err m := by simpa using herr
      simp only [runUploads, herr']
  | succ k ih =>
    intro files i hk hpre herr
    cases files with
    | nil => simp at hk
    | cons f fs =>
      obtain ⟨a, b, hab⟩ := hpre 0 (Nat.succ_pos _)
      have hab' : outcomes i = .ok a b := by simpa using hab
      have h2 : runUploads outcomes fs (i + 1) = (k + 1, Except.error m) := by
        refine ih fs (i + 1) (Nat.lt_of_succ_lt_succ hk) (fun j hj => ?_) ?_
        · have hh := hpre (j + 1) (Nat.succ_lt_succ hj)
          have e : i + (j + 1) = i + 1 + j := by omega
          rw [e] at hh
          exact hh
        · have e : i + (k + 1) = i + 1 + k := by omega
          rw [e] at herr
          exact herr
      simp only [runUploads, hab', h2]
      rfl

theorem gwServe_owner (rawCode c : String) (files : List GwFile) (box : Box)
    (credRow : Option CredRow) (now : Int) (g : Bool) (tr : TokenResp)
    (outcomes : Nat → UploadOutcome)
    (hcode : extractLinkCode rawCode = some c)
    (hne : files.isEmpty = false)
    (himg : files.any (fun f => ¬ jsStartsWith f.type ("image/")) = false)
    (hexp : boxExpiredGate box.expiresAt now = false) :
    gwServe rawCode files (some box) credRow now g tr outcomes =
      gwOwnerStage box credRow now g tr outcomes files := by
  simp only [gwServe, hcode, hne, himg, hexp]
  simp

theorem gwOwnerStage_response_not_expired (box : Box) (credRow : Option CredRow)
    (now : Int) (g : Bool) (tr : TokenResp) (outcomes : Nat → UploadOutcome)
    (files : List GwFile) :
    (gwOwnerStage box credRow now g tr outcomes files).response ≠
      GwResponse.linkExpired := by
  rcases credRow with _ | cred
  · simp [gwOwnerStage]
  · simp only [gwOwnerStage]
    split
    · simp
    · split
      · simp
      · split
        · simp
        · split
          · simp
          · simp

theorem gwOwnerStage_fresh_access (box : Box) (cred : CredRow) (now : Int)
    (g : Bool) (tr : TokenResp) (outcomes : Nat → UploadOutcome)
    (files : List GwFile)
    (haccess : optTruthy cred.accessToken = true)
    (hfresh : isExpired cred.expiresAt now = false) :
    gwOwnerStage box (some cred) now g tr outcomes files =
      match (runUploads outcomes files 0).2 with
      | Except.error m =>
        ⟨.uploadFailed m, 1, 0, [], (runUploads outcomes files 0).1, []⟩
      | Except.ok results =>
        ⟨.okFiles results, 1, 0, [], (runUploads outcomes files 0).1,
          if results.length > 0 then [box.photoCount.getD 0 + results.length]
          else []⟩ := by
  obtain ⟨hsome, hne2⟩ := optTruthy_getD _ haccess
  have hb : (cred.accessToken.getD "" == "") = false :=
    beq_eq_false_iff_ne.mpr hne2
  simp [gwOwnerStage, haccess, hfresh, hb, hne2]

theorem refreshAccessToken_ok_fields (g : Bool) (now : Int) (tr : TokenResp)
    (r : RefreshedTok) (h : refreshAccessToken g now tr = Except.ok r) :
    r.accessToken = tr.accessToken ∧
      (∀ s, r.refreshToken = some s → s ≠ "") := by
  by_cases hg : g = true
  · by_cases ho : tr.ok = true
    · unfold refreshAccessToken at h
      rw [if_neg (by simp [hg]), if_neg (by simp [ho])] at h
      injection h with h3
      subst h3
      refine ⟨rfl, ?_⟩
      intro s hs
      rcases hf : tr.refreshTokenField with _ | s0
      · rw [hf] at hs
        simp at hs
      · rw [hf] at hs
        by_cases hs0 : s0 = ""
        · simp [hs0] at hs
        · simp [hs0] at hs
          subst hs
          exact hs0
    · unfold refreshAccessToken at h
      rw [if_neg (by simp [hg]), if_pos (by simp [ho])] at h
      exact absurd h (by simp)
  · unfold refreshAccessToken at h
    rw [if_pos (by simp [hg])] at h
    exact absurd h (by simp)

theorem gwOwnerStage_refresh_taken (box : Box) (cred : CredRow) (now : Int)
    (g : Bool) (tr : TokenResp) (outcomes : Nat → UploadOutcome)
    (files : List GwFile)
    (hrt : optTruthy cred.refreshToken = true)
    (hneed : ((cred.accessToken.getD "" == "") ||
      isExpired cred.expiresAt now) = true) :
    (gwOwnerStage box (some cred) now g tr outcomes files).refreshCalls = 1 ∧
    ((gwOwnerStage box (some cred) now g tr outcomes files).credWrites =
      match refreshAccessToken g now tr with
      | Except.error _ => []
      | Except.ok refreshed => [refreshCredWrite cred refreshed]) ∧
    (refreshAccessToken g now tr = Except.error () →
      gwOwnerStage box (some cred) now g tr outcomes files =
        ⟨.refreshFailed, 1, 1, [], 0, []⟩) := by
  rcases hr : refreshAccessToken g now tr with e | refreshed
  · simp [gwOwnerStage, hrt, hneed, hr]
  · by_cases ha : refreshed.accessToken = ""
    · simp [gwOwnerStage, hrt, hneed, hr, ha]
    · rcases hu : (runUploads outcomes files 0).2 with m | results
      · simp [gwOwnerStage, hrt, hneed, hr, ha, hu]
      · simp [gwOwnerStage, hrt, hneed, hr, ha, hu]

theorem gwOwnerStage_refresh_skipped (box : Box) (cred : CredRow) (now : Int)
    (g : Bool) (tr : TokenResp) (outcomes : Nat → UploadOutcome)
    (files : List GwFile)
    (hnotneed : ¬ (optTruthy cred.refreshToken = true ∧
      ((cred.accessToken.getD "" == "") ||
        isExpired cred.expiresAt now) = true)) :
    (gwOwnerStage box (some cred) now g tr outcomes files).refreshCalls = 0 ∧
    (gwOwnerStage box (some cred) now g tr outcomes files).credWrites = [] := by
  by_cases hguard : ¬ optTruthy cred.accessToken = true ∧
      ¬ optTruthy cred.refreshToken = true
  · simp [gwOwnerStage, hguard.1, hguard.2]
  · by_cases ha : cred.accessToken.getD "" = ""
    · exfalso
      have haf : optTruthy cred.accessToken = false := by
        rcases hacc : cred.accessToken with _ | s
        · simp [optTruthy]
        · rw [hacc] at ha
          simp at ha
          simp [optTruthy, ha]
      have hrf : optTruthy cred.refreshToken = false := by
        by_contra hc
        exact hnotneed ⟨by simpa using hc, by simp [ha]⟩
      exact hguard ⟨by simp [haf], by simp [hrf]⟩
    · have hcond : ¬ (optTruthy cred.refreshToken = true ∧
          isExpired cred.expiresAt now = true) := by
        rintro ⟨h1, h2⟩
        exact hnotneed ⟨h1, by simp [h2]⟩
      have hbeq : (cred.accessToken.getD "" == "") = false :=
        beq_eq_false_iff_ne.mpr ha
      rcases hu : (runUploads outcomes files 0).2 with m | results
      · simp [gwOwnerStage, hguard, hcond, ha, hbeq, hu]
        refine ⟨?_, ?_⟩ <;> (split <;> rfl)
      · simp [gwOwnerStage, hguard, hcond, ha, hbeq, hu]
        refine ⟨?_, ?_⟩ <;> (split <;> rfl)

/-! ## Claim theorems -/

/-- C6: the claim says every generated link code is fixed-length, made of
uppercase letters and digits, and matches `^[A-Za-z0-9]{4,12}$`. The code
violates this: for the real draw `Math.random() = 0.25`, whose base-36
representation is `"0.9"`, `generateLinkCode` returns the one-character
code `"9"`, which fails the pattern and is rejected even by the
repository's own `extractLinkCode`. -/
theorem C6_generated_code_can_be_too_short :
    jsToStringBase36 [9] = "0.9" ∧
    validBase36Fraction [9] = true ∧
    generateLinkCode [9] = "9" ∧
    matchesCodePattern (generateLinkCode [9]).data = false ∧
    extractLinkCode (generateLinkCode [9]) = none := by decide

/-- C7: the dashboard produces share links of the form
`{origin}/#/box/{code}` and the claim says the upload endpoint resolves
both the bare code and that full link. The code violates the second part:
`extractLinkCode` resolves the bare code, but returns `null` on the very
link the dashboard produces, because its patterns search for `#/jar/` and
`/jar/` instead of `/box/`. -/
theorem C7_share_link_not_resolved :
    dashboardShareLink ("https://example.com") ("AB12") =
      "https://example.com/#/box/AB12" ∧
    extractLinkCode ("AB12") = some ("AB12") ∧
    extractLinkCode (dashboardShareLink ("https://example.com") ("AB12")) =
      none ∧
    extractLinkCode ("https://example.com/#/jar/AB12") = some ("AB12") := by
  decide

/-- C1 counterexample: in a 5-file batch where file 3 fails upstream, the
gateway does not report per-file results and does not advance the counter
by 4: the upload loop aborts at the failing file (only 3 uploads are
attempted), the whole batch answers with a single 502 error, and no
`photo_count` write is issued, so the counter advances by 0. -/
theorem C1_batch_abort_counterexample :
    gwServe ("AB12") batch5 (some liveBox) (some freshCred) 0 true
        tokRespUnused failAt3 =
      ⟨.uploadFailed ("boom"), 1, 0, [], 3, []⟩ ∧
    (gwServe ("AB12") batch5 (some liveBox) (some freshCred) 0 true
        tokRespUnused failAt3).response.status = 502 ∧
    applyCountWrites (liveBox.photoCount.getD 0)
      (gwServe ("AB12") batch5 (some liveBox) (some freshCred) 0 true
        tokRespUnused failAt3).countWrites = 0 := by decide

/-- C2 counterexample: the counter update is not an atomic store-side
increment. Two concurrent one-file batches that both read the same
Collection snapshot (count 0) each write the absolute value 1; applying
both writes leaves the stored count at 1, not the 2 that two increments
would produce — an increment is lost. -/
theorem C2_lost_update_counterexample :
    (gwServe ("AB12") oneImg (some liveBox) (some freshCred) 0 true
        tokRespUnused allOk).countWrites = [1] ∧
    applyCountWrites 0
      ((gwServe ("AB12") oneImg (some liveBox) (some freshCred) 0 true
          tokRespUnused allOk).countWrites ++
        (gwServe ("AB12") oneImg (some liveBox) (some freshCred) 0 true
          tokRespUnused allOk).countWrites) = 1 ∧
    ¬ applyCountWrites 0
        ((gwServe ("AB12") oneImg (some liveBox) (some freshCred) 0 true
            tokRespUnused allOk).countWrites ++
          (gwServe ("AB12") oneImg (some liveBox) (some freshCred) 0 true
            tokRespUnused allOk).countWrites) = 1 + 1 := by decide

/-- C9 counterexample: a stored credential with an access token, a past
expiry and no refresh token satisfies the claim's refresh condition
(expiry is within 30 seconds of now) yet triggers no proactive refresh:
the gateway proceeds to upload with the stale token. -/
theorem C9_stale_token_without_refresh_token :
    isExpired (some (-1000)) 0 = true ∧
    (gwServe ("AB12") oneImg (some liveBox)
        (some ⟨some ("tok"), none, some (-1000)⟩) 0 true tokRespUnused
        allOk).refreshCalls = 0 ∧
    (gwServe ("AB12") oneImg (some liveBox)
        (some ⟨some ("tok"), none, some (-1000)⟩) 0 true tokRespUnused
        allOk).response = .okFiles [("i", "n")] ∧
    (gwServe ("AB12") oneImg (some liveBox)
        (some ⟨some ("tok"), none, some (-1000)⟩) 0 true tokRespUnused
        allOk).credWrites = [] := by decide

/-- C10: on an HTTP-success provider response whose body is empty or not
valid JSON, `uploadFile` does not fail: it resolves with a locally
fabricated `DriveFile` whose id is the fresh random string prefixed
`file_` and whose links are empty. -/
theorem C10_upload_fabricated_success (resp : UploadHttpResp)
    (randDigits : List Nat) (fileName sizeStr nowIso : String)
    (hok : resp.ok = true) (hbody : resp.bodyText = "" ∨ resp.parsed = none) :
    uploadFileService resp randDigits fileName sizeStr nowIso =
      Except.ok (fallbackDriveFile randDigits fileName sizeStr nowIso) ∧
    (fallbackDriveFile randDigits fileName sizeStr nowIso).id =
      "file_" ++ jsSubstr (jsToStringBase36 randDigits) 2 9 ∧
    (fallbackDriveFile randDigits fileName sizeStr nowIso).thumbnailLink
      = "" ∧
    (fallbackDriveFile randDigits fileName sizeStr nowIso).webContentLink
      = "" := by
  refine ⟨?_, rfl, rfl, rfl⟩
  rcases hbody with hb | hp
  · simp [uploadFileService, hok, hb]
  · by_cases hb : resp.bodyText = ""
    · simp [uploadFileService, hok, hb]
    · simp [uploadFileService, hok, hb, hp]

/-- Witness for C10 at a concrete ok-but-empty provider response. -/
theorem C10_witness :
    uploadFileService ⟨true, "", none⟩ [9] ("p.jpg") ("0.10 MB") ("t0") =
      Except.ok (fallbackDriveFile [9] ("p.jpg") ("0.10 MB") ("t0")) ∧
    (fallbackDriveFile [9] ("p.jpg") ("0.10 MB") ("t0")).id =
      "file_" ++ jsSubstr (jsToStringBase36 [9]) 2 9 ∧
    (fallbackDriveFile [9] ("p.jpg") ("0.10 MB") ("t0")).thumbnailLink = "" ∧
    (fallbackDriveFile [9] ("p.jpg") ("0.10 MB") ("t0")).webContentLink = "" :=
  C10_upload_fabricated_success ⟨true, "", none⟩ [9] ("p.jpg") ("0.10 MB")
    ("t0") rfl (Or.inl rfl)

/-- C4: an `authorizedFetch` call triggers at most one token-refresh cycle
and at most one retry. On a 401 first attempt with a refresher that yields
a fresh different token, exactly one refresh runs and the request is
retried exactly once with the new token; the retried response is returned
as-is, so a second 401 propagates. If the refresh fails (throws or yields
null) the original 401 propagates with no retry. When the first response
is not an authorization failure no refresh runs. The plain `fetchWithAuth`
of `services/googleDrive.ts` performs one fetch and zero refreshes. -/
theorem C4_single_refresh_retry (fetchF : String → HttpResp)
    (refresher : Option (Option String)) (token : String) :
    (authorizedFetch fetchF refresher token).refreshCalls ≤ 1 ∧
    (authorizedFetch fetchF refresher token).fetchTokens.length ≤ 2 ∧
    (∀ t, (fetchF token).status = 401 → refresher = some (some t) → t ≠ "" →
      t ≠ token →
      authorizedFetch fetchF refresher token = ⟨fetchF t, 1, [token, t]⟩) ∧
    ((fetchF token).status = 401 → refresher = some none →
      authorizedFetch fetchF refresher token = ⟨fetchF token, 1, [token]⟩) ∧
    ((fetchF token).status ≠ 401 →
      authorizedFetch fetchF refresher token = ⟨fetchF token, 0, [token]⟩) ∧
    (∀ tok2, (fetchWithAuth fetchF tok2).2.refreshCalls = 0 ∧
      (fetchWithAuth fetchF tok2).2.fetchTokens = [tok2]) := by
  have hfw : ∀ tok2 : String, (fetchWithAuth fetchF tok2).2.refreshCalls = 0 ∧
      (fetchWithAuth fetchF tok2).2.fetchTokens = [tok2] := by
    intro tok2
    by_cases h : 200 ≤ (fetchF tok2).status ∧ (fetchF tok2).status ≤ 299 <;>
      simp [fetchWithAuth, h]
  refine ⟨?_, ?_, ?_, ?_, ?_, hfw⟩
  · by_cases h : (fetchF token).status = 401
    · rcases refresher with _ | outcome
      · simp [authorizedFetch, h]
      · rcases outcome with _ | t0
        · simp [authorizedFetch, h]
        · by_cases ht : t0 = "" ∨ t0 = token <;> simp [authorizedFetch, h, ht]
    · simp [authorizedFetch, h]
  · by_cases h : (fetchF token).status = 401
    · rcases refresher with _ | outcome
      · simp [authorizedFetch, h]
      · rcases outcome with _ | t0
        · simp [authorizedFetch, h]
        · by_cases ht : t0 = "" ∨ t0 = token <;> simp [authorizedFetch, h, ht]
    · simp [authorizedFetch, h]
  · intro t h401 hr ht1 ht2
    subst hr
    simp [authorizedFetch, h401, ht1, ht2]
  · intro h401 hr
    subst hr
    simp [authorizedFetch, h401]
  · intro h
    simp [authorizedFetch, h]

/-- Witness for C4: a concrete 401-then-refresh-then-retry run. -/
theorem C4_witness :
    authorizedFetch
        (fun tok => if tok = "a" then ⟨401, "expired"⟩ else ⟨200, "ok"⟩)
        (some (some ("b"))) ("a") =
      ⟨⟨200, "ok"⟩, 1, ["a", "b"]⟩ := by
  have h := (C4_single_refresh_retry
    (fun tok => if tok = "a" then ⟨401, "expired"⟩ else ⟨200, "ok"⟩)
    (some (some ("b"))) ("a")).2.2.1 ("b") (by decide) rfl (by decide)
    (by decide)
  simpa using h

/-- C8: collection allocation makes at most 3 insert attempts, each with a
freshly generated code (attempt i inserts the code generated from draw i);
it only ever inserts, never updates or deletes; three uniqueness
collisions exhaust the loop and the operation fails rather than returning
a Collection; a non-uniqueness insert error aborts immediately at whichever
attempt it occurs; a success stops the loop at that attempt. -/
theorem C8_allocation_bounded_retry (draws : Nat → List Nat)
    (outcomes : Nat → InsertOutcome) :
    (handleCreateBoxAlloc draws outcomes).ops.length ≤ 3 ∧
    (∀ op ∈ (handleCreateBoxAlloc draws outcomes).ops,
      ∃ code, op = StoreOp.insertRow code) ∧
    ((handleCreateBoxAlloc draws outcomes).ops =
      (List.range (handleCreateBoxAlloc draws outcomes).ops.length).map
        (fun i => StoreOp.insertRow (generateLinkCode (draws i)))) ∧
    (outcomes 0 = .uniqueViolation → outcomes 1 = .uniqueViolation →
      outcomes 2 = .uniqueViolation →
      (handleCreateBoxAlloc draws outcomes).result = .exhausted ∧
      (handleCreateBoxAlloc draws outcomes).ops.length = 3) ∧
    (∀ ec, outcomes 0 = .otherError ec →
      (handleCreateBoxAlloc draws outcomes).result = .aborted ec ∧
      (handleCreateBoxAlloc draws outcomes).ops.length = 1) ∧
    (∀ ec, outcomes 0 = .uniqueViolation → outcomes 1 = .otherError ec →
      (handleCreateBoxAlloc draws outcomes).result = .aborted ec ∧
      (handleCreateBoxAlloc draws outcomes).ops.length = 2) ∧
    (∀ ec, outcomes 0 = .uniqueViolation → outcomes 1 = .uniqueViolation →
      outcomes 2 = .otherError ec →
      (handleCreateBoxAlloc draws outcomes).result = .aborted ec ∧
      (handleCreateBoxAlloc draws outcomes).ops.length = 3) ∧
    (outcomes 0 = .created →
      (handleCreateBoxAlloc draws outcomes).result =
        .created 0 (generateLinkCode (draws 0)) ∧
      (handleCreateBoxAlloc draws outcomes).ops.length = 1) ∧
    (outcomes 0 = .uniqueViolation → outcomes 1 = .created →
      (handleCreateBoxAlloc draws outcomes).result =
        .created 1 (generateLinkCode (draws 1)) ∧
      (handleCreateBoxAlloc draws outcomes).ops.length = 2) := by
  rcases h0 : outcomes 0 with _ | _ | c0 <;>
    rcases h1 : outcomes 1 with _ | _ | c1 <;>
      rcases h2 : outcomes 2 with _ | _ | c2 <;>
        simp [handleCreateBoxAlloc, allocLoop, h0, h1, h2, List.range_succ]

/-- Witness for C8: three collisions in a row exhaust the allocation. -/
theorem C8_witness :
    (handleCreateBoxAlloc (fun _ => [1, 2, 3, 4, 5, 6])
        (fun _ => InsertOutcome.uniqueViolation)).result =
      AllocResult.exhausted ∧
    (handleCreateBoxAlloc (fun _ => [1, 2, 3, 4, 5, 6])
        (fun _ => InsertOutcome.uniqueViolation)).ops.length = 3 :=
  (C8_allocation_bounded_retry (fun _ => [1, 2, 3, 4, 5, 6])
    (fun _ => InsertOutcome.uniqueViolation)).2.2.2.1 rfl rfl rfl

/-- C5: the gateway fails with `Expired` (HTTP 410) exactly when the
resolved Collection's `expiresAt` is less than or equal to now; a
Collection expiring at `now - 1` is rejected, one expiring at `now + 1`
proceeds, and an expired request performs no credential read, no refresh,
no upload and no counter write. -/
theorem C5_expiry_gate (rawCode c : String) (files : List GwFile) (box : Box)
    (credRow : Option CredRow) (now : Int) (g : Bool) (tr : TokenResp)
    (outcomes : Nat → UploadOutcome)
    (hcode : extractLinkCode rawCode = some c)
    (hne : files.isEmpty = false)
    (himg : (files.any fun f => ¬ jsStartsWith f.type ("image/")) = false) :
    ((gwServe rawCode files (some box) credRow now g tr outcomes).response =
        GwResponse.linkExpired ↔ ∃ e, box.expiresAt = some e ∧ e ≤ now) ∧
    ((gwServe rawCode files (some box) credRow now g tr outcomes).response =
        GwResponse.linkExpired →
      gwServe rawCode files (some box) credRow now g tr outcomes =
        ⟨.linkExpired, 0, 0, [], 0, []⟩) ∧
    (box.expiresAt = some (now - 1) →
      (gwServe rawCode files (some box) credRow now g tr outcomes).response =
        GwResponse.linkExpired) ∧
    (box.expiresAt = some (now + 1) →
      (gwServe rawCode files (some box) credRow now g tr outcomes).response ≠
        GwResponse.linkExpired) := by
  by_cases hexp : boxExpiredGate box.expiresAt now = true
  · have hserve : gwServe rawCode files (some box) credRow now g tr outcomes =
        ⟨.linkExpired, 0, 0, [], 0, []⟩ := by
      simp only [gwServe, hcode, hne, himg]
      simp [hexp]
    have hex : ∃ e, box.expiresAt = some e ∧ e ≤ now := by
      unfold boxExpiredGate at hexp
      rcases hbe : box.expiresAt with _ | e
      · rw [hbe] at hexp
        simp at hexp
      · rw [hbe] at hexp
        exact ⟨e, rfl, of_decide_eq_true hexp⟩
    refine ⟨⟨fun _ => hex, fun _ => by simp [hserve]⟩, fun _ => hserve,
      fun _ => by simp [hserve], ?_⟩
    intro he
    exfalso
    rw [he] at hexp
    unfold boxExpiredGate at hexp
    have := of_decide_eq_true hexp
    omega
  · have hb : boxExpiredGate box.expiresAt now = false := by
      simpa using hexp
    have hserve := gwServe_owner rawCode c files box credRow now g tr outcomes
      hcode hne himg hb
    have hnl := gwOwnerStage_response_not_expired box credRow now g tr outcomes
      files
    refine ⟨⟨?_, ?_⟩, ?_, ?_, ?_⟩
    · intro hcontra
      rw [hserve] at hcontra
      exact absurd hcontra hnl
    · rintro ⟨e, hee, hle⟩
      exfalso
      rw [hee] at hb
      unfold boxExpiredGate at hb
      exact (of_decide_eq_false hb) hle
    · intro hcontra
      rw [hserve] at hcontra
      exact absurd hcontra hnl
    · intro he
      exfalso
      rw [he] at hb
      unfold boxExpiredGate at hb
      have := of_decide_eq_false hb
      omega
    · intro _
      rw [hserve]
      exact hnl

/-- Witness for C5: a box expiring 1ms before now is rejected and one
expiring 1ms after now is not. -/
theorem C5_witness :
    (gwServe ("AB12") oneImg (some ⟨"b1", "o1", "folder1", some (-1), some 0⟩)
        (some freshCred) 0 true tokRespUnused allOk).response =
      GwResponse.linkExpired ∧
    (gwServe ("AB12") oneImg (some ⟨"b1", "o1", "folder1", some 1, some 0⟩)
        (some freshCred) 0 true tokRespUnused allOk).response ≠
      GwResponse.linkExpired :=
  ⟨(C5_expiry_gate ("AB12") ("AB12") oneImg
      ⟨"b1", "o1", "folder1", some (-1), some 0⟩ (some freshCred) 0 true
      tokRespUnused allOk (by decide) rfl (by decide)).2.2.1 (by decide),
   (C5_expiry_gate ("AB12") ("AB12") oneImg
      ⟨"b1", "o1", "folder1", some 1, some 0⟩ (some freshCred) 0 true
      tokRespUnused allOk (by decide) rfl (by decide)).2.2.2 (by decide)⟩

/-- C3: when the gateway runs a proactive refresh, a successful token
exchange produces exactly one `user_oauth_tokens` write persisting the new
access token and new expiry; the stored refresh token is overwritten only
when the provider returned a (non-empty) refresh token, else the stored
one is kept, and the written refresh token is never empty; a failed
exchange produces no credential write and a 502 response. -/
theorem C3_refresh_persist (rawCode c : String) (files : List GwFile)
    (box : Box) (cred : CredRow) (now : Int) (g : Bool) (tr : TokenResp)
    (outcomes : Nat → UploadOutcome)
    (hcode : extractLinkCode rawCode = some c)
    (hne : files.isEmpty = false)
    (himg : (files.any fun f => ¬ jsStartsWith f.type ("image/")) = false)
    (hexp : boxExpiredGate box.expiresAt now = false)
    (hrt : optTruthy cred.refreshToken = true)
    (hneed : ((cred.accessToken.getD "" == "") ||
      isExpired cred.expiresAt now) = true) :
    (∀ refreshed, refreshAccessToken g now tr = Except.ok refreshed →
      (gwServe rawCode files (some box) (some cred) now g tr
          outcomes).credWrites = [refreshCredWrite cred refreshed] ∧
      (refreshCredWrite cred refreshed).accessToken = tr.accessToken ∧
      (refreshCredWrite cred refreshed).expiresAt = refreshed.expiresAt ∧
      optTruthy (refreshCredWrite cred refreshed).refreshToken = true ∧
      (refreshed.refreshToken = none →
        (refreshCredWrite cred refreshed).refreshToken = cred.refreshToken) ∧
      (∀ s, refreshed.refreshToken = some s →
        (refreshCredWrite cred refreshed).refreshToken = some s)) ∧
    (refreshAccessToken g now tr = Except.error () →
      (gwServe rawCode files (some box) (some cred) now g tr
          outcomes).credWrites = [] ∧
      (gwServe rawCode files (some box) (some cred) now g tr
          outcomes).response = GwResponse.refreshFailed) := by
  have hserve := gwServe_owner rawCode c files box (some cred) now g tr
    outcomes hcode hne himg hexp
  have htaken := gwOwnerStage_refresh_taken box cred now g tr outcomes files
    hrt hneed
  constructor
  · intro refreshed hok
    obtain ⟨hacc, hrf⟩ := refreshAccessToken_ok_fields g now tr refreshed hok
    refine ⟨?_, hacc, rfl, ?_, ?_, ?_⟩
    · rw [hserve, htaken.2.1, hok]
    · rcases hrr : refreshed.refreshToken with _ | s
      · simpa [refreshCredWrite, hrr] using hrt
      · have hs := hrf s hrr
        simp [refreshCredWrite, hrr, optTruthy, hs]
    · intro hnone
      simp [refreshCredWrite, hnone]
    · intro s hs
      simp [refreshCredWrite, hs]
  · intro herr
    rw [hserve, htaken.2.2 herr]
    exact ⟨rfl, rfl⟩

/-- Witness for C3: a concrete refresh (empty stored access token, provider
returns a new access token, expiry 3600s and an empty refresh-token field)
persists exactly the expected single write, keeping the stored refresh
token. -/
theorem C3_witness :
    (gwServe ("AB12") oneImg (some liveBox)
        (some ⟨some (""), some ("rtok"), none⟩) 0 true
        ⟨true, "newTok", some 3600, some ("")⟩ allOk).credWrites =
      [refreshCredWrite ⟨some (""), some ("rtok"), none⟩
        ⟨"newTok", some 3600000, none⟩] :=
  ((C3_refresh_persist ("AB12") ("AB12") oneImg liveBox
      ⟨some (""), some ("rtok"), none⟩ 0 true
      ⟨true, "newTok", some 3600, some ("")⟩ allOk (by decide) rfl (by decide)
      (by decide) (by decide) (by decide)).1
    ⟨"newTok", some 3600000, none⟩ rfl).1

/-- C1 (amended): the upload loop is sequential and aborts at the first
failing file: with a healthy credential, if file k fails after k successes,
the gateway responds with a single 502 carrying that error, attempts only
k+1 uploads and writes no counter update; only when every file succeeds
does it respond with the per-file results and write the single absolute
counter value snapshot + batch size. -/
theorem C1_batch_abort (rawCode c : String) (files : List GwFile) (box : Box)
    (cred : CredRow) (now : Int) (g : Bool) (tr : TokenResp)
    (outcomes : Nat → UploadOutcome) (k : Nat) (m : String)
    (hcode : extractLinkCode rawCode = some c)
    (hne : files.isEmpty = false)
    (himg : (files.any fun f => ¬ jsStartsWith f.type ("image/")) = false)
    (hexp : boxExpiredGate box.expiresAt now = false)
    (haccess : optTruthy cred.accessToken = true)
    (hfresh : isExpired cred.expiresAt now = false) :
    (k < files.length →
      (∀ j, j < k → ∃ a b, outcomes j = UploadOutcome.ok a b) →
      outcomes k = UploadOutcome.err m →
      gwServe rawCode files (some box) (some cred) now g tr outcomes =
        ⟨.uploadFailed m, 1, 0, [], k + 1, []⟩) ∧
    ((∀ j, j < files.length → ∃ a b, outcomes j = UploadOutcome.ok a b) →
      (gwServe rawCode files (some box) (some cred) now g tr
          outcomes).countWrites = [box.photoCount.getD 0 + files.length] ∧
      ∃ l, (gwServe rawCode files (some box) (some cred) now g tr
          outcomes).response = GwResponse.okFiles l ∧
        l.length = files.length) := by
  have hserve := gwServe_owner rawCode c files box (some cred) now g tr
    outcomes hcode hne himg hexp
  have hchar := gwOwnerStage_fresh_access box cred now g tr outcomes files
    haccess hfresh
  constructor
  · intro hk hpre herr
    have hrun := runUploads_first_err outcomes m k files 0 hk
      (fun j hj => by simpa using hpre j hj) (by simpa using herr)
    rw [hserve, hchar, hrun]
  · intro hall
    obtain ⟨l, hrun, hlen⟩ := runUploads_all_ok outcomes files 0
      (fun j hj => by simpa using hall j hj)
    have hpos : 0 < files.length := by
      cases files with
      | nil => simp at hne
      | cons a as => simp
    rw [hserve, hchar, hrun]
    refine ⟨?_, ⟨l, rfl, hlen⟩⟩
    simp [hlen, hpos]

/-- Witness for C1 (amended): the concrete 5-file batch with file 3
failing aborts after 3 upload attempts with a single 502. -/
theorem C1_amended_witness :
    gwServe ("AB12") batch5 (some liveBox) (some freshCred) 0 true
        tokRespUnused failAt3 =
      ⟨.uploadFailed ("boom"), 1, 0, [], 3, []⟩ :=
  (C1_batch_abort ("AB12") ("AB12") batch5 liveBox freshCred 0 true
      tokRespUnused failAt3 2 ("boom") (by decide) rfl (by decide) (by decide)
      (by decide) (by decide)).1 (by decide)
    (fun j hj => by
      match j with
      | 0 => exact ⟨"i", "n", rfl⟩
      | 1 => exact ⟨"i", "n", rfl⟩
      | n + 2 => exact absurd hj (by omega)) rfl

/-- C2 (amended): the counter update is a read-modify-write in application
code: after an all-success batch the gateway writes the single absolute
value snapshot-count + batch-size, and applying that write leaves the
store at that value regardless of the store's count at write time — so
concurrent increments to the same Collection are overwritten (lost). -/
theorem C2_counter_rmw (rawCode c : String) (files : List GwFile) (box : Box)
    (cred : CredRow) (now : Int) (g : Bool) (tr : TokenResp)
    (outcomes : Nat → UploadOutcome) (storeVal : Nat)
    (hcode : extractLinkCode rawCode = some c)
    (hne : files.isEmpty = false)
    (himg : (files.any fun f => ¬ jsStartsWith f.type ("image/")) = false)
    (hexp : boxExpiredGate box.expiresAt now = false)
    (haccess : optTruthy cred.accessToken = true)
    (hfresh : isExpired cred.expiresAt now = false)
    (hall : ∀ j, j < files.length → ∃ a b, outcomes j = UploadOutcome.ok a b) :
    (gwServe rawCode files (some box) (some cred) now g tr
        outcomes).countWrites = [box.photoCount.getD 0 + files.length] ∧
    applyCountWrites storeVal
        (gwServe rawCode files (some box) (some cred) now g tr
          outcomes).countWrites =
      box.photoCount.getD 0 + files.length := by
  have hserve := gwServe_owner rawCode c files box (some cred) now g tr
    outcomes hcode hne himg hexp
  have hchar := gwOwnerStage_fresh_access box cred now g tr outcomes files
    haccess hfresh
  obtain ⟨l, hrun, hlen⟩ := runUploads_all_ok outcomes files 0
    (fun j hj => by simpa using hall j hj)
  have hpos : 0 < files.length := by
    cases files with
    | nil => simp at hne
    | cons a as => simp
  have hcw : (gwServe rawCode files (some box) (some cred) now g tr
      outcomes).countWrites = [box.photoCount.getD 0 + files.length] := by
    rw [hserve, hchar, hrun]
    simp [hlen, hpos]
  refine ⟨hcw, ?_⟩
  rw [hcw]
  rfl

/-- Witness for C2 (amended): a one-file batch over a snapshot count of 0
writes the absolute value 1, and applying that write to a store that
meanwhile reached 7 still leaves 1. -/
theorem C2_amended_witness :
    (gwServe ("AB12") oneImg (some liveBox) (some freshCred) 0 true
        tokRespUnused allOk).countWrites = [1] ∧
    applyCountWrites 7
        (gwServe ("AB12") oneImg (some liveBox) (some freshCred) 0 true
          tokRespUnused allOk).countWrites = 1 := by
  have h := C2_counter_rmw ("AB12") ("AB12") oneImg liveBox freshCred 0 true
    tokRespUnused allOk 7 (by decide) rfl (by decide) (by decide) (by decide)
    (by decide) (fun j hj => ⟨"i", "n", rfl⟩)
  simpa [liveBox, oneImg] using h

/-- C9 (amended): the gateway triggers a proactive refresh exactly when a
refresh token is stored and (the stored access token is missing or the
stored expiry is within 30 seconds of now); in particular a credential
with a null expiry and a present access token triggers no refresh. -/
theorem C9_refresh_condition (rawCode c : String) (files : List GwFile)
    (box : Box) (cred : CredRow) (now : Int) (g : Bool) (tr : TokenResp)
    (outcomes : Nat → UploadOutcome)
    (hcode : extractLinkCode rawCode = some c)
    (hne : files.isEmpty = false)
    (himg : (files.any fun f => ¬ jsStartsWith f.type ("image/")) = false)
    (hexp : boxExpiredGate box.expiresAt now = false) :
    (gwServe rawCode files (some box) (some cred) now g tr
        outcomes).refreshCalls =
      (if optTruthy cred.refreshToken = true ∧
          (cred.accessToken.getD "" = "" ∨ isExpired cred.expiresAt now = true)
        then 1 else 0) ∧
    (cred.expiresAt = none → optTruthy cred.accessToken = true →
      (gwServe rawCode files (some box) (some cred) now g tr
          outcomes).refreshCalls = 0) := by
  have hserve := gwServe_owner rawCode c files box (some cred) now g tr
    outcomes hcode hne himg hexp
  by_cases hc : optTruthy cred.refreshToken = true ∧
      (cred.accessToken.getD "" = "" ∨ isExpired cred.expiresAt now = true)
  · have hneed : ((cred.accessToken.getD "" == "") ||
        isExpired cred.expiresAt now) = true := by
      rcases hc.2 with h | h
      · simp [h]
      · simp [h]
    have ht := gwOwnerStage_refresh_taken box cred now g tr outcomes files
      hc.1 hneed
    constructor
    · rw [hserve, ht.1, if_pos hc]
    · intro hnone haccess
      exfalso
      rcases hc.2 with h | h
      · obtain ⟨_, hne2⟩ := optTruthy_getD _ haccess
        exact hne2 h
      · rw [hnone] at h
        simp [isExpired] at h
  · have hnotneed : ¬ (optTruthy cred.refreshToken = true ∧
        ((cred.accessToken.getD "" == "") ||
          isExpired cred.expiresAt now) = true) := by
      rintro ⟨h1, h2⟩
      apply hc
      refine ⟨h1, ?_⟩
      have h2x : (cred.accessToken.getD "" == "") = true ∨
          isExpired cred.expiresAt now = true := by simpa using h2
      rcases h2x with hb | hb
      · exact Or.inl (by simpa using hb)
      · exact Or.inr hb
    have hs := gwOwnerStage_refresh_skipped box cred now g tr outcomes files
      hnotneed
    refine ⟨?_, fun _ _ => ?_⟩
    · rw [hserve, hs.1, if_neg hc]
    · rw [hserve]
      exact hs.1

/-- Witness for C9 (amended): a healthy credential (access token present,
far-future expiry) triggers no refresh. -/
theorem C9_witness :
    (gwServe ("AB12") oneImg (some liveBox) (some freshCred) 0 true
        tokRespUnused allOk).refreshCalls = 0 := by
  have h := (C9_refresh_condition ("AB12") ("AB12") oneImg liveBox freshCred 0
    true tokRespUnused allOk (by decide) rfl (by decide) (by decide)).1
  rw [h]
  decide

end PullBox
